import Mathlib

/-!
Verification of the gitlab_ops terminal client (src/main.rs) against its
specification. The fetcher's JSON parsing, the browser's key handling and
the program's error-handling policies are embedded shallowly; network and
terminal I/O are abstracted to their observable data (the decoded JSON
response, the stream of key events, messages printed to standard error).
-/

namespace GitlabOps

/-- A model of `serde_json::Value`: the dynamic JSON values the fetcher
traverses. Numbers are modelled as integers (the only number in play is
the literal 100 in the request variables). -/
inductive Json where
  | null : Json
  | bool : Bool → Json
  | num : Int → Json
  | str : String → Json
  | arr : List Json → Json
  | obj : List (String × Json) → Json

/-- First-match lookup in an object's field list (serde_json maps have
unique keys, so first-match agrees with map lookup). -/
def lookupField (key : String) : List (String × Json) → Option Json
  | [] => none
  | (k, v) :: rest => if k = key then some v else lookupField key rest

/-- `Value::get(key)`: `Some` field value on objects, `None` otherwise. -/
def Json.get : Json → String → Option Json
  | .obj fields, key => lookupField key fields
  | _, _ => none

/-- `Value::as_str()`. -/
def Json.asStr : Json → Option String
  | .str s => some s
  | _ => none

/-- `Value::as_array()`. -/
def Json.asArray : Json → Option (List Json)
  | .arr xs => some xs
  | _ => none

/-- The `Project` record of main.rs lines 23-28. -/
structure Project where
  name : String
  description : String
  web_url : String
  deriving DecidableEq

/-- The request variables of main.rs line 178: `json!({ "first": 100 })`.
The 100-item page size lives only here, in the request. -/
def request_variables : Json := Json.obj [("first", Json.num 100)]

/-- The traversal of main.rs lines 197-201:
`response.get("data").and_then(get "projects").and_then(get "nodes").and_then(as_array)`. -/
def nodes_path (response : Json) : Option (List Json) :=
  ((((response.get "data").bind fun data => data.get "projects").bind
      fun projects => projects.get "nodes").bind Json.asArray)

/-- One iteration of the node loop, main.rs lines 204-215: each field is
taken with `.get(..).and_then(as_str).unwrap_or(placeholder)`. -/
def parse_node (node : Json) : Project :=
  { name := ((node.get "name").bind Json.asStr).getD "N/A",
    description := ((node.get "description").bind Json.asStr).getD "No description",
    web_url := ((node.get "webUrl").bind Json.asStr).getD "N/A" }

/-- The response-parsing stage of `fetch_projects`, main.rs lines 196-217:
if the nodes path yields an array its nodes are converted in order,
otherwise `projects` stays the empty vector. -/
def parse_projects (response : Json) : List Project :=
  match nodes_path response with
  | some nodes => nodes.map parse_node
  | none => []

/-- `fetch_projects` after the transport succeeded with decoded body
`response`: main.rs line 219 wraps the parsed list in `Ok`, so the parsing
stage never produces an error. (Transport and HTTP failures occur before
line 196 and are modelled by feeding `Except.error` into the caller,
see `projects_after_fetch`.) -/
def fetch_projects (response : Json) : Except String (List Project) :=
  .ok (parse_projects response)

/-- The `AppState` of main.rs lines 31-35. Of ratatui's `ListState` only
the selected-entry component is observable to the claims; it is modelled
as `Option Nat` (`ListState::select(Some i)` sets it to `some i`). -/
structure AppState where
  projects : List Project
  selected_index : Nat
  list_state : Option Nat
  deriving DecidableEq

/-- The initial state built in main.rs lines 67-72: `selected_index` 0,
`ListState::default()` followed unconditionally by `select(Some(0))`. -/
def init_app_state (projects : List Project) : AppState :=
  { projects := projects, selected_index := 0, list_state := some 0 }

/-- The key codes distinguished by the match in main.rs lines 98-117;
`other` stands for every key code matched by the final `_` arm. -/
inductive KeyCode where
  | esc : KeyCode
  | char : Char → KeyCode
  | down : KeyCode
  | up : KeyCode
  | other : KeyCode

/-- Outcome of one loop iteration's key handling: `quit` is the
`return Ok(())` arms, `crash` is an arithmetic-underflow panic of the
debug profile, `cont` continues the loop with the updated state. -/
inductive Step where
  | quit : Step
  | crash : Step
  | cont : AppState → Step
  deriving DecidableEq

/-- Debug-profile `usize` subtraction as in `projects.len() - 1`
(main.rs line 105): underflow panics, modelled as `none`. (The release
profile instead wraps to `2^64 - 1`; either way the subtraction is not
the spec's clamped no-op when the list is empty.) -/
def usize_sub (a b : Nat) : Option Nat :=
  if b ≤ a then some (a - b) else none

/-- The key-event match of main.rs lines 98-117. Arms in source order:
`Esc` and `Char('q')` return `Ok(())`; `Down` increments below
`projects.len() - 1` and re-selects; `Up` decrements above 0 and
re-selects; every other key is ignored. -/
def handle_key (s : AppState) : KeyCode → Step
  | .esc => .quit
  | .char c => if c = 'q' then .quit else .cont s
  | .down =>
      match usize_sub s.projects.length 1 with
      | none => .crash
      | some last =>
          if s.selected_index < last then
            .cont { s with selected_index := s.selected_index + 1,
                           list_state := some (s.selected_index + 1) }
          else .cont s
  | .up =>
      if s.selected_index > 0 then
        .cont { s with selected_index := s.selected_index - 1,
                       list_state := some (s.selected_index - 1) }
      else .cont s
  | .other => .cont s

/-- Result of running the `run_app` loop on a finite stream of key
events: `ok` is the loop returning `Ok(())`, `crashed` an underflow
panic, `pending s` the stream exhausted with the loop still running. -/
inductive LoopResult where
  | ok : LoopResult
  | crashed : LoopResult
  | pending : AppState → LoopResult
  deriving DecidableEq

/-- The loop of main.rs lines 94-119, with `terminal.draw` and
`event::read` abstracted into consuming the next key of the stream. -/
def run_app (s : AppState) : List KeyCode → LoopResult
  | [] => .pending s
  | k :: ks =>
      match handle_key s k with
      | .quit => .ok
      | .crash => .crashed
      | .cont t => run_app t ks

/-- The caller policy of main.rs lines 62-65: on a fetch error the
message `Failed to fetch projects: {err}` goes to standard error and the
project list degrades to the empty vector; on success the fetched list is
used and nothing is logged. First component: the project list handed to
`AppState`; second: the lines printed to standard error. -/
def projects_after_fetch : Except String (List Project) → List Project × List String
  | .ok ps => (ps, [])
  | .error err => ([], ["Failed to fetch projects: " ++ err])

/-- Observable behaviour of `main` after the UI loop returns. -/
structure MainExit where
  terminal_restored : Bool
  stderr : List String
  exit_code : Nat
  deriving DecidableEq

/-- main.rs lines 75-86, with the three terminal-restore calls (lines
78-80) modelled as succeeding: raw mode is disabled and the alternate
screen left, a `run_app` error is printed as `Error: {err}` to standard
error, and `main` then returns `Ok(())` — so the process exit status is
0 on this path whether or not the loop failed. -/
def main_after_run_app (res : Except String Unit) : MainExit :=
  { terminal_restored := true,
    stderr := match res with
      | .error err => ["Error: " ++ err]
      | .ok _ => [],
    exit_code := 0 }

/-- Spec-side reading of one field (spec §4.1): the value of `field` if
it is a string, and the placeholder `d` otherwise (missing or
non-string). -/
def spec_string_field (node : Json) (field d : String) : String :=
  match node.get field with
  | some (Json.str s) => s
  | _ => d

/-- Spec-side description of one node's conversion (spec §4.1 / §8): name
from `name` with placeholder "N/A", description from `description` with
placeholder "No description", url from `webUrl` with placeholder "N/A". -/
def spec_node_project (node : Json) : Project :=
  { name := spec_string_field node "name" "N/A",
    description := spec_string_field node "description" "No description",
    web_url := spec_string_field node "webUrl" "N/A" }

/- Helper lemmas. -/

/-- The source's `.and_then(as_str).unwrap_or(d)` agrees with the spec's
"the field if it is a string, the placeholder otherwise". -/
theorem bind_asStr_getD (node : Json) (field d : String) :
    ((node.get field).bind Json.asStr).getD d = spec_string_field node field d := by
  unfold spec_string_field
  cases node.get field with
  | none => rfl
  | some j => cases j <;> rfl

/-- The source's node conversion agrees with the spec's description. -/
theorem parse_node_eq_spec (node : Json) : parse_node node = spec_node_project node := by
  unfold parse_node spec_node_project
  rw [bind_asStr_getD, bind_asStr_getD, bind_asStr_getD]

/-- With a non-empty list the `len() - 1` of the Down arm cannot
underflow. -/
theorem usize_sub_len_one (s : AppState) (h : s.projects ≠ []) :
    usize_sub s.projects.length 1 = some (s.projects.length - 1) := by
  have hlen : 1 ≤ s.projects.length := List.length_pos.mpr h
  unfold usize_sub
  rw [if_pos hlen]

/-- Key handling with a non-empty list never crashes, keeps the list, and
preserves the selection bound. -/
theorem handle_key_preserves (s : AppState) (k : KeyCode)
    (hne : s.projects ≠ []) (hinv : s.selected_index < s.projects.length) :
    handle_key s k ≠ .crash ∧
      ∀ t, handle_key s k = .cont t →
        t.projects = s.projects ∧ t.selected_index < t.projects.length := by
  have hsub := usize_sub_len_one s hne
  cases k with
  | esc =>
      refine ⟨by simp [handle_key], fun t ht => ?_⟩
      simp [handle_key] at ht
  | char c =>
      by_cases hq : c = 'q'
      · refine ⟨by simp [handle_key, hq], fun t ht => ?_⟩
        simp [handle_key, hq] at ht
      · refine ⟨by simp [handle_key, hq], fun t ht => ?_⟩
        simp [handle_key, hq] at ht
        rw [← ht]
        exact ⟨rfl, hinv⟩
  | down =>
      simp only [handle_key, hsub]
      by_cases hc : s.selected_index < s.projects.length - 1
      · rw [if_pos hc]
        refine ⟨by simp, fun t ht => ?_⟩
        simp only [Step.cont.injEq] at ht
        rw [← ht]
        exact ⟨rfl, by show s.selected_index + 1 < s.projects.length; omega⟩
      · rw [if_neg hc]
        refine ⟨by simp, fun t ht => ?_⟩
        simp only [Step.cont.injEq] at ht
        rw [← ht]
        exact ⟨rfl, hinv⟩
  | up =>
      simp only [handle_key]
      by_cases hc : s.selected_index > 0
      · rw [if_pos hc]
        refine ⟨by simp, fun t ht => ?_⟩
        simp only [Step.cont.injEq] at ht
        rw [← ht]
        exact ⟨rfl, by show s.selected_index - 1 < s.projects.length; omega⟩
      · rw [if_neg hc]
        refine ⟨by simp, fun t ht => ?_⟩
        simp only [Step.cont.injEq] at ht
        rw [← ht]
        exact ⟨rfl, hinv⟩
  | other =>
      refine ⟨by simp [handle_key], fun t ht => ?_⟩
      simp [handle_key] at ht
      rw [← ht]
      exact ⟨rfl, hinv⟩

/-- Running the loop from any in-bound state over a non-empty list never
crashes. -/
theorem run_app_no_crash (ks : List KeyCode) (s : AppState)
    (hne : s.projects ≠ []) (hinv : s.selected_index < s.projects.length) :
    run_app s ks ≠ .crashed := by
  induction ks generalizing s with
  | nil => simp [run_app]
  | cons k ks ih =>
      have hp := handle_key_preserves s k hne hinv
      simp only [run_app]
      cases hk : handle_key s k with
      | quit => simp
      | crash => exact absurd hk hp.1
      | cont t =>
          have ht := hp.2 t hk
          have : t.projects ≠ [] := by rw [ht.1]; exact hne
          exact ih t this ht.2

/- Sample data used by the witnesses. -/

/-- The node of spec §8's first scenario plus the second scenario's
partial node. -/
def sample_nodes : List Json :=
  [Json.obj [("name", Json.str "A"), ("description", Json.str "d"),
             ("webUrl", Json.str "http://x")],
   Json.obj [("name", Json.str "A")]]

/-- A well-formed response carrying `sample_nodes`. -/
def sample_response : Json :=
  Json.obj [("data", Json.obj [("projects", Json.obj [("nodes", Json.arr sample_nodes)])])]

/-- 101 empty nodes: more than the requested page size. -/
def big_nodes : List Json := List.replicate 101 (Json.obj [])

/-- A well-formed response carrying `big_nodes`. -/
def big_response : Json :=
  Json.obj [("data", Json.obj [("projects", Json.obj [("nodes", Json.arr big_nodes)])])]

/-- A concrete project record. -/
def sample_project : Project :=
  { name := "A", description := "d", web_url := "http://x" }

/-- A two-project state with the first entry selected. -/
def sample_state : AppState :=
  { projects := [sample_project, { name := "B", description := "e", web_url := "http://y" }],
    selected_index := 0, list_state := some 0 }

/- Claim theorems. -/

/-- Claim C1 (code_bug evidence): with an empty project list, the Down
arm evaluates `projects.len() - 1 = 0 - 1` in `usize`, which underflows:
the handler panics rather than leaving the state unchanged. -/
theorem down_on_empty_crashes :
    handle_key { projects := [], selected_index := 0, list_state := some 0 }
      KeyCode.down = Step.crash := rfl

/-- Claim C2: for every well-formed response whose `data.projects.nodes`
array has at most 100 elements, the parse succeeds with exactly one
record per node, in array order, each field taken from the node when it
is a string and replaced by its documented placeholder otherwise. -/
theorem parse_matches_spec_fields (response : Json) (nodes : List Json)
    (hpath : nodes_path response = some nodes) (hN : nodes.length ≤ 100) :
    fetch_projects response = .ok (nodes.map spec_node_project) ∧
      (nodes.map spec_node_project).length = nodes.length := by
  constructor
  · unfold fetch_projects parse_projects
    rw [hpath]
    show Except.ok (nodes.map parse_node) = _
    have : parse_node = spec_node_project := funext parse_node_eq_spec
    rw [this]
  · exact List.length_map nodes spec_node_project

/-- Witness for C2 at the two scenario nodes of spec §8. -/
theorem parse_matches_spec_fields_witness :
    nodes_path sample_response = some sample_nodes ∧
      sample_nodes.length ≤ 100 ∧
      (fetch_projects sample_response = .ok (sample_nodes.map spec_node_project) ∧
        (sample_nodes.map spec_node_project).length = sample_nodes.length) :=
  ⟨rfl, by decide, parse_matches_spec_fields sample_response sample_nodes rfl (by decide)⟩

/-- Claim C3: with a non-empty list, Down increments the selection
exactly when `selected_index + 1 < projects.len()` and otherwise leaves
the state unchanged, and Up decrements exactly when `selected_index > 0`
and otherwise leaves the state unchanged. -/
theorem nav_keys_clamp (s : AppState) (h : s.projects ≠ []) :
    handle_key s KeyCode.down =
        .cont (if s.selected_index + 1 < s.projects.length then
                 { s with selected_index := s.selected_index + 1,
                          list_state := some (s.selected_index + 1) }
               else s) ∧
      handle_key s KeyCode.up =
        .cont (if 0 < s.selected_index then
                 { s with selected_index := s.selected_index - 1,
                          list_state := some (s.selected_index - 1) }
               else s) := by
  have hlen : 0 < s.projects.length := List.length_pos.mpr h
  have hsub := usize_sub_len_one s h
  constructor
  · simp only [handle_key, hsub]
    by_cases hc : s.selected_index < s.projects.length - 1
    · rw [if_pos hc, if_pos (by omega)]
    · rw [if_neg hc, if_neg (by omega)]
  · simp only [handle_key]
    by_cases hc : 0 < s.selected_index
    · rw [if_pos hc, if_pos hc]
    · rw [if_neg hc, if_neg hc]

/-- Witness for C3 at a concrete two-project state. -/
theorem nav_keys_clamp_witness :
    sample_state.projects ≠ [] ∧
      (handle_key sample_state KeyCode.down =
          .cont (if sample_state.selected_index + 1 < sample_state.projects.length then
                   { sample_state with
                     selected_index := sample_state.selected_index + 1,
                     list_state := some (sample_state.selected_index + 1) }
                 else sample_state) ∧
        handle_key sample_state KeyCode.up =
          .cont (if 0 < sample_state.selected_index then
                   { sample_state with
                     selected_index := sample_state.selected_index - 1,
                     list_state := some (sample_state.selected_index - 1) }
                 else sample_state)) :=
  ⟨by decide, nav_keys_clamp sample_state (by decide)⟩

/-- Claim C4: over a non-empty list the bound
`selected_index < projects.len()` holds in the initial state, and
handling any single key from a state satisfying it cannot crash and
yields a state that keeps the same list and still satisfies it; hence
the loop never crashes on any key stream. -/
theorem selection_invariant (projects : List Project) (hne : projects ≠ []) :
    (init_app_state projects).selected_index < (init_app_state projects).projects.length ∧
      (∀ (s : AppState) (k : KeyCode), s.projects ≠ [] →
        s.selected_index < s.projects.length →
        handle_key s k ≠ .crash ∧
          ∀ t, handle_key s k = .cont t →
            t.projects = s.projects ∧ t.selected_index < t.projects.length) ∧
      ∀ ks : List KeyCode, run_app (init_app_state projects) ks ≠ .crashed := by
  have hlen : 0 < projects.length := List.length_pos.mpr hne
  refine ⟨hlen, fun s k => handle_key_preserves s k, fun ks => ?_⟩
  exact run_app_no_crash ks (init_app_state projects) hne hlen

/-- Witness for C4 at a concrete two-project list. -/
theorem selection_invariant_witness :
    sample_state.projects ≠ [] ∧
      ((init_app_state sample_state.projects).selected_index <
          (init_app_state sample_state.projects).projects.length ∧
        (∀ (s : AppState) (k : KeyCode), s.projects ≠ [] →
          s.selected_index < s.projects.length →
          handle_key s k ≠ .crash ∧
            ∀ t, handle_key s k = .cont t →
              t.projects = s.projects ∧ t.selected_index < t.projects.length) ∧
        ∀ ks : List KeyCode, run_app (init_app_state sample_state.projects) ks ≠ .crashed) :=
  ⟨by decide, selection_invariant sample_state.projects (by decide)⟩

/-- Claim C5: whenever the `data.projects.nodes` path is absent or not
an array, the parse returns the empty list as a success, not an error. -/
theorem missing_nodes_path_yields_empty (response : Json)
    (h : nodes_path response = none) :
    fetch_projects response = .ok [] := by
  unfold fetch_projects parse_projects
  rw [h]

/-- Witness for C5 at a response with no `data` key at all. -/
theorem missing_nodes_path_yields_empty_witness :
    nodes_path (Json.obj []) = none ∧ fetch_projects (Json.obj []) = .ok [] :=
  ⟨rfl, missing_nodes_path_yields_empty (Json.obj []) rfl⟩

/-- Claim C6 (counterexample): with an empty fetched list the initial
state's UI selection is not cleared — `select(Some(0))` runs
unconditionally, so it is `some 0`, not `none`. -/
theorem init_empty_selection_not_cleared :
    (init_app_state []).list_state ≠ none := by decide

/-- Claim C6 (amended): in the initial state `selected_index = 0` and
the UI list selection is set to entry 0, whether or not the fetched
project list is empty. -/
theorem init_selection_always_zero (projects : List Project) :
    (init_app_state projects).selected_index = 0 ∧
      (init_app_state projects).list_state = some 0 :=
  ⟨rfl, rfl⟩

/-- Claim C7: from any state, empty list or not and whatever the
selection, the escape key and the letter q terminate the loop with
success. -/
theorem quit_keys_return_ok (s : AppState) (ks : List KeyCode) :
    run_app s (KeyCode.esc :: ks) = .ok ∧
      run_app s (KeyCode.char 'q' :: ks) = .ok := by
  constructor <;> simp [run_app, handle_key]

/-- Claim C8 (counterexample): when the UI loop fails, `main` still
returns `Ok(())` after logging, so the process exit status is 0 — not
non-zero as claimed. -/
theorem ui_error_exit_code_zero :
    (main_after_run_app (Except.error "draw failed")).exit_code = 0 := rfl

/-- Claim C8 (amended): when the UI loop terminates with an I/O error,
`main` restores the terminal and reports `Error: {err}` on standard
error, but then returns success: the process exits with status 0. -/
theorem ui_error_logged_exit_zero (err : String) :
    main_after_run_app (.error err) =
      { terminal_restored := true, stderr := ["Error: " ++ err], exit_code := 0 } := rfl

/-- Claim C9: on any fetch error the caller logs
`Failed to fetch projects: {err}` to standard error and continues with
the empty project list, so the browser state is still built, with no
items. -/
theorem fetch_error_degrades_to_empty (err : String) :
    (projects_after_fetch (.error err)).1 = [] ∧
      (projects_after_fetch (.error err)).2 = ["Failed to fetch projects: " ++ err] ∧
      (init_app_state (projects_after_fetch (.error err)).1).projects = [] :=
  ⟨rfl, rfl, rfl⟩

/-- Claim C10: the 100-item limit exists only in the request variables;
the parse itself returns one record per node whatever the array length,
with no client-side truncation. -/
theorem parse_has_no_length_limit :
    request_variables.get "first" = some (Json.num 100) ∧
      ∀ (response : Json) (nodes : List Json), nodes_path response = some nodes →
        (parse_projects response).length = nodes.length := by
  refine ⟨rfl, fun response nodes hpath => ?_⟩
  unfold parse_projects
  rw [hpath]
  exact List.length_map nodes parse_node

/-- Witness for C10 at a response with 101 nodes. -/
theorem parse_has_no_length_limit_witness :
    nodes_path big_response = some big_nodes ∧
      (parse_projects big_response).length = big_nodes.length :=
  ⟨rfl, parse_has_no_length_limit.2 big_response big_nodes rfl⟩

end GitlabOps
